import Mathlib

/-!
Verification of the Milan Housing Dashboard core (column resolver, filter
engine, derived metrics, error-handling control flow) against its
natural-language specification.  The definitions below are a shallow
embedding of `src/app.py`: dataframes become ordered lists of rows (each row
an association list from column name to cell value), pandas numeric coercion
becomes an explicit decimal parser, and the Streamlit script's rendering
becomes a pure function from the environment (which files exist, what the
user selected) to an ordered list of rendered items.
-/

namespace Milan

/-- A cell value of the loaded table: a number, a string, or a missing cell
(pandas `NaN`). -/
inductive Val where
  | vnum (q : ℚ)
  | vstr (s : String)
  | vmissing
  deriving DecidableEq, Repr

/-- A row of the dataframe: an association list from column name to value. -/
abbrev Row := List (String × Val)

/-- The in-memory table: the dataframe's column names and its rows in order. -/
structure Table where
  cols : List String
  rows : List Row
  deriving DecidableEq, Repr

/-- Value of column `c` in row `r`; a cell absent from the row is missing. -/
def getVal (r : Row) (c : String) : Val :=
  match r.find? (fun p => p.1 == c) with
  | some p => p.2
  | none => Val.vmissing

/-- Numeric value of a run of decimal digits. -/
def digitsVal (cs : List Char) : ℕ :=
  cs.foldl (fun a c => 10 * a + (c.toNat - 48)) 0

/-- Whether every character is a decimal digit. -/
def allDigits (cs : List Char) : Bool :=
  cs.all Char.isDigit

/-- Unsigned decimal literal: `"12"`, `"12.5"`, `"12."`, `".5"`. -/
def parseUnsigned (s : String) : Option ℚ :=
  match s.splitOn "." with
  | [a] =>
    if !a.isEmpty && allDigits a.data then some (digitsVal a.data : ℚ) else none
  | [a, b] =>
    if !(a.isEmpty && b.isEmpty) && allDigits a.data && allDigits b.data then
      some ((digitsVal a.data : ℚ) + (digitsVal b.data : ℚ) / (10 ^ b.length : ℚ))
    else none
  | _ => none

/-- Models the decimal fragment of `pd.to_numeric(s, errors="coerce")` on a
string cell: an optional sign followed by a decimal literal parses to its
value, anything else (including the empty string) coerces to missing. -/
def parseNumStr (s : String) : Option ℚ :=
  if s.startsWith "-" then (parseUnsigned (s.drop 1)).map (fun q => -q)
  else if s.startsWith "+" then parseUnsigned (s.drop 1)
  else parseUnsigned s

/-- Embedding of `to_num` (`pd.to_numeric(s, errors="coerce")`) on one cell:
numbers pass through, strings are parsed, missing stays missing (`NaN`). -/
def to_numVal : Val → Option ℚ
  | Val.vnum q => some q
  | Val.vstr s => parseNumStr s
  | Val.vmissing => none

/-- Embedding of `to_num(df[c]).dropna()`: the coerced numeric values of
column `c`, in row order, with unparseable and missing cells dropped. -/
def colNums (t : Table) (c : String) : List ℚ :=
  t.rows.filterMap (fun r => to_numVal (getVal r c))

/-- Embedding of `pick_col`: the first candidate name that is one of the
table's columns, `none` if no candidate matches (case-sensitive equality). -/
def pick_col (df : Table) (candidates : List String) : Option String :=
  match candidates with
  | [] => none
  | c :: rest => if c ∈ df.cols then some c else pick_col df rest

/-- Candidate column names for the `area` role (`area_col` in `app.py`). -/
def areaCandidates : List String :=
  ["Area", "area", "neighborhood", "Neighbourhood", "quartiere", "Quartiere"]

/-- Candidate column names for the `bedrooms` role (`bed_col`). -/
def bedCandidates : List String :=
  ["Bedroom", "Bedrooms", "bedroom", "bedrooms", "beds"]

/-- Candidate column names for the `energy` role (`energy_col`). -/
def energyCandidates : List String :=
  ["Energy_score", "energy_score", "energy", "EnergyScore", "energyScore"]

/-- Candidate column names for the `transport` role (`transport_col`). -/
def transportCandidates : List String :=
  ["transport", "Transport", "transport_score", "Transport_score"]

/-- Candidate column names for the `price` role (`price_col`). -/
def priceCandidates : List String := ["price", "Price"]

/-- Candidate column names for the price-per-area role (`priceperm_col`). -/
def pricepermCandidates : List String :=
  ["priceperm", "price_per_m2", "price_per_sqm", "PricePerm", "price_per_meter"]

/-- Candidate column names for the log-price role (`ln_price_col`). -/
def lnPriceCandidates : List String := ["ln_price", "lnprice", "Ln_price"]

/-- Python `int()` on a number: truncation toward zero. -/
def truncQ (q : ℚ) : ℤ :=
  if 0 ≤ q then ⌊q⌋ else -⌊-q⌋

/-- Rounding to the nearest integer, ties to the even integer, as Python's
fixed-point string formatting does on exact ties. -/
def roundHalfEven (q : ℚ) : ℤ :=
  let f := ⌊q⌋
  let r := q - (f : ℚ)
  if r < 1 / 2 then f
  else if 1 / 2 < r then f + 1
  else if f % 2 = 0 then f else f + 1

/-- Groups of at most three characters, taken from the front. -/
def chunk3 : List Char → List (List Char)
  | [] => []
  | a :: b :: c :: rest => [a, b, c] :: chunk3 rest
  | l => [l]

/-- Thousands separators: commas inserted every three digits from the right. -/
def commaSep (s : String) : String :=
  String.mk (List.intercalate [','] (((chunk3 s.data.reverse).map List.reverse).reverse))

/-- A natural number rendered with thousands separators (`f"{n:,}"`). -/
def commaNat (n : ℕ) : String :=
  commaSep (toString n)

/-- Embedding of Python `f"{q:,.0f}"`: round to zero decimal places and insert
thousands separators; a negative value keeps its sign (even `-0`). -/
def fmtComma (q : ℚ) : String :=
  (if q < 0 then "-" else "") ++ commaSep (toString (roundHalfEven |q|).toNat)

/-- A digit string left-padded with zeros to length `k`. -/
def padZeros (k : ℕ) (s : String) : String :=
  String.mk (List.replicate (k - s.length) '0') ++ s

/-- Embedding of Python `f"{q:.kf}"`: round to `k` decimal places, print with
exactly `k` fractional digits and no thousands separators. -/
def fmtFixed (k : ℕ) (q : ℚ) : String :=
  let n := (roundHalfEven (|q| * (10 ^ k : ℚ))).toNat
  (if q < 0 then "-" else "") ++ toString (n / 10 ^ k) ++ "." ++ padZeros k (toString (n % 10 ^ k))

/-- Arithmetic mean of a list of rationals (`Series.mean`). -/
def meanList (l : List ℚ) : ℚ :=
  l.foldl (fun a b => a + b) 0 / (l.length : ℚ)

/-- Insertion into a weakly sorted list of rationals. -/
def insertSorted (x : ℚ) : List ℚ → List ℚ
  | [] => [x]
  | y :: ys => if x ≤ y then x :: y :: ys else y :: insertSorted x ys

/-- Ascending sort of a list of rationals. -/
def sortQ (l : List ℚ) : List ℚ :=
  l.foldr insertSorted []

/-- Median of a nonempty list of rationals (`Series.median`): middle element
of the sorted list, or the mean of the two middle elements at even length. -/
def medianList (l : List ℚ) : ℚ :=
  let s := sortQ l
  let n := s.length
  if n % 2 = 1 then s.getD (n / 2) 0
  else (s.getD (n / 2 - 1) 0 + s.getD (n / 2) 0) / 2

/-- Python truthiness of the optional column argument (`if col and ...`):
`None` and the empty string are falsy. -/
def truthyCol : Option String → Bool
  | none => false
  | some s => !(s == "")

/-- Embedding of `safe_mean`: if the column argument is truthy and an actual
column, coerce it to numeric and drop the unparseable values; if values
remain, format their mean with separators and no decimals when it exceeds 10
and with three decimals otherwise; in every other case return the em-dash. -/
def safe_mean (df : Table) (col : Option String) : String :=
  match col with
  | none => "—"
  | some c =>
    if c ≠ "" ∧ c ∈ df.cols then
      let v := colNums df c
      if v ≠ [] then
        if 10 < meanList v then fmtComma (meanList v) else fmtFixed 3 (meanList v)
      else "—"
    else "—"

/-- Embedding of `safe_median`: identical to `safe_mean` with the median in
place of the mean. -/
def safe_median (df : Table) (col : Option String) : String :=
  match col with
  | none => "—"
  | some c =>
    if c ≠ "" ∧ c ∈ df.cols then
      let v := colNums df c
      if v ≠ [] then
        if 10 < medianList v then fmtComma (medianList v) else fmtFixed 3 (medianList v)
      else "—"
    else "—"

/-- The role bindings computed once after load (`area_col`, `bed_col`,
`energy_col`, `transport_col` in `app.py`). -/
structure Bindings where
  area : Option String
  bed : Option String
  energy : Option String
  transport : Option String
  deriving DecidableEq, Repr

/-- The sidebar widget state of one rendering pass: the multiselect's chosen
areas and the positions of the three range sliders (a slider only matters
when its control is shown). -/
structure Choices where
  areaSel : List Val
  bedRange : ℤ × ℤ
  energyRange : ℚ × ℚ
  transportRange : ℚ × ℚ
  deriving DecidableEq, Repr

/-- Embedding of the `app.py` role detection: `pick_col` applied to the four
filter roles' candidate lists. -/
def bindRoles (df : Table) : Bindings :=
  { area := pick_col df areaCandidates
    bed := pick_col df bedCandidates
    energy := pick_col df energyCandidates
    transport := pick_col df transportCandidates }

/-- Embedding of the area filter block: with a truthy bound column and a
nonempty selection, keep the rows whose area value is one of the selected
values (`filtered[area_col].isin(selected_areas)`); otherwise the table is
unchanged. -/
def applyArea (t : Table) (areaCol : Option String) (sel : List Val) : Table :=
  match areaCol with
  | none => t
  | some c =>
    if c = "" then t
    else if sel = [] then t
    else { t with rows := t.rows.filter (fun r => decide (getVal r c ∈ sel)) }

/-- Embedding of `Series.between(lo, hi)` on one cell: true exactly when the
cell coerces to a number in the closed interval; `NaN` compares false. -/
def betweenRow (r : Row) (c : String) (lo hi : ℚ) : Bool :=
  match to_numVal (getVal r c) with
  | some q => decide (lo ≤ q ∧ q ≤ hi)
  | none => false

/-- Smallest element of a list of rationals (`Series.min`; 0 for `[]`, which
the callers rule out). -/
def listMin : List ℚ → ℚ
  | [] => 0
  | x :: xs => xs.foldl min x

/-- Largest element of a list of rationals (`Series.max`; 0 for `[]`). -/
def listMax : List ℚ → ℚ
  | [] => 0
  | x :: xs => xs.foldl max x

/-- Embedding of the bedroom filter block: skipped when the role is unbound
or the coerced column is empty; the slider bounds are `int(b.min())` and
`int(b.max())` (truncation toward zero); when they differ, keep the rows
whose coerced value lies in the chosen closed range. -/
def applyBed (t : Table) (bedCol : Option String) (choice : ℤ × ℤ) : Table :=
  match bedCol with
  | none => t
  | some c =>
    if c = "" then t
    else
      let b := colNums t c
      if b = [] then t
      else if truncQ (listMin b) = truncQ (listMax b) then t
      else { t with rows := t.rows.filter (fun r => betweenRow r c (choice.1 : ℚ) (choice.2 : ℚ)) }

/-- Embedding of the energy-score and transport filter blocks: skipped when
the role is unbound or the coerced column is empty; when the column's min and
max differ, keep the rows whose coerced value lies in the chosen closed
range. -/
def applyRange (t : Table) (col : Option String) (choice : ℚ × ℚ) : Table :=
  match col with
  | none => t
  | some c =>
    if c = "" then t
    else
      let v := colNums t c
      if v = [] then t
      else if listMin v = listMax v then t
      else { t with rows := t.rows.filter (fun r => betweenRow r c choice.1 choice.2) }

/-- Embedding of the whole sidebar filter pipeline: area, then bedroom, then
energy score, then transport, each applied to the previous stage's output. -/
def applyFilters (df : Table) (b : Bindings) (ch : Choices) : Table :=
  applyRange
    (applyRange (applyBed (applyArea df b.area ch.areaSel) b.bed ch.bedRange) b.energy ch.energyRange)
    b.transport ch.transportRange

/-- Whether the bedroom range control is shown for table `t` (bound truthy
column, nonempty coerced values, distinct truncated bounds). -/
def bedActive (t : Table) (col : Option String) : Bool :=
  match col with
  | none => false
  | some c =>
    if c = "" then false
    else
      let b := colNums t c
      if b = [] then false
      else decide (truncQ (listMin b) ≠ truncQ (listMax b))

/-- Whether an energy/transport range control is shown for table `t`. -/
def rangeActive (t : Table) (col : Option String) : Bool :=
  match col with
  | none => false
  | some c =>
    if c = "" then false
    else
      let v := colNums t c
      if v = [] then false
      else decide (listMin v ≠ listMax v)

/-- No constraint of the filter spec is active on `df`: the area selection is
empty and none of the three range controls is shown. -/
def noActive (df : Table) (b : Bindings) (ch : Choices) : Prop :=
  ch.areaSel = [] ∧ bedActive df b.bed = false ∧
    rangeActive df b.energy = false ∧ rangeActive df b.transport = false

instance (df : Table) (b : Bindings) (ch : Choices) : Decidable (noActive df b ch) := by
  unfold noActive
  infer_instance

/-- One item rendered by the Streamlit script, in page order. -/
inductive RItem where
  | errorMsg (s : String)
  | stopMark
  | sidebarSection
  | exploreKPIs (listings medianPrice medianPricePerArea meanLnPrice : String)
  | previewSection
  | mapSection
  | kpi (label value : String)
  | captionMsg (s : String)
  | infoMsg (s : String)
  | warnMsg (s : String)
  | shapSection
  | aboutSection
  deriving DecidableEq, Repr

/-- State of the model-metrics file: `none` when `model_metrics.json` is
absent, `some none` when present but unreadable (`json.load` or a `float`
conversion raises), `some (some (rmse, mae, r2))` when parsed. -/
abbrev MetricsFile := Option (Option (ℚ × ℚ × ℚ))

/-- The rendering environment: whether the dataset and map files exist, the
loaded table, the sidebar widget state, and the metrics file's state. -/
structure Env where
  datasetPresent : Bool
  df : Table
  choices : Choices
  mapPresent : Bool
  metricsFile : MetricsFile

/-- Embedding of the model-metrics block: parsed metrics render as four-digit
fixed-point KPIs; an unreadable file renders three em-dashes and a warning;
an absent file renders three em-dashes and an informational message. -/
def metricsItems : MetricsFile → List RItem
  | some (some (r1, m, r2)) =>
    [RItem.kpi "RMSE" (fmtFixed 4 r1), RItem.kpi "MAE" (fmtFixed 4 m),
     RItem.kpi "R²" (fmtFixed 4 r2), RItem.captionMsg "Metrics loaded from model_metrics.json"]
  | some none =>
    [RItem.kpi "RMSE" "—", RItem.kpi "MAE" "—", RItem.kpi "R²" "—",
     RItem.warnMsg "Couldn't read model_metrics.json"]
  | none =>
    [RItem.kpi "RMSE" "—", RItem.kpi "MAE" "—", RItem.kpi "R²" "—",
     RItem.infoMsg "Create model_metrics.json in your notebook to show metrics here."]

/-- Embedding of the script's top-to-bottom control flow: a missing dataset
renders a top-level error and stops; otherwise the sidebar runs the filter
pipeline and the Explore, Model (metrics + SHAP) and About sections render. -/
def render (env : Env) : List RItem :=
  if env.datasetPresent = false then
    [RItem.errorMsg "data file not found", RItem.stopMark]
  else
    let b := bindRoles env.df
    let filtered := applyFilters env.df b env.choices
    [RItem.sidebarSection,
     RItem.exploreKPIs (commaNat filtered.rows.length)
       (safe_median filtered (pick_col env.df priceCandidates))
       (safe_median filtered (pick_col env.df pricepermCandidates))
       (safe_mean filtered (pick_col env.df lnPriceCandidates)),
     RItem.previewSection] ++
    (if env.mapPresent then [RItem.mapSection]
     else [RItem.warnMsg "Map file not found: milan_area_map_lnprice.html"]) ++
    metricsItems env.metricsFile ++ [RItem.shapSection, RItem.aboutSection]

/-- First row of the spec's end-to-end scenario. -/
def exRowX : Row := [("Area", Val.vstr "X"), ("Bedroom", Val.vnum 2), ("price", Val.vnum 500000)]

/-- Second row of the spec's end-to-end scenario. -/
def exRowY : Row := [("Area", Val.vstr "Y"), ("Bedroom", Val.vnum 5), ("price", Val.vnum 15)]

/-- The spec's end-to-end scenario table. -/
def exTable : Table := { cols := ["Area", "Bedroom", "price"], rows := [exRowX, exRowY] }

theorem pick_col_cons (df : Table) (c : String) (rest : List String) :
    pick_col df (c :: rest) = if c ∈ df.cols then some c else pick_col df rest := rfl

/-- C3: `pick_col` returns the first candidate name, in the candidate list's
priority order, that exactly equals one of the table's columns, and `none`
when no candidate occurs among the columns; a table with columns
`["Quartiere", "price"]` binds the area role to `"Quartiere"`. -/
theorem pick_col_first_match (df : Table) (cs : List String) :
    (pick_col df cs = none ↔ ∀ c ∈ cs, c ∉ df.cols) ∧
    (∀ c, pick_col df cs = some c →
      c ∈ df.cols ∧ ∃ pre post, cs = pre ++ c :: post ∧ ∀ x ∈ pre, x ∉ df.cols) ∧
    pick_col (Table.mk ["Quartiere", "price"] []) areaCandidates = some "Quartiere" := by
  refine ⟨?_, ?_, by decide⟩
  · induction cs with
    | nil => simp [pick_col]
    | cons c rest ih =>
      by_cases h : c ∈ df.cols
      · simp [pick_col_cons, h]
      · simp only [pick_col_cons, if_neg h, ih, List.mem_cons]
        constructor
        · intro hall x hx
          rcases hx with hx | hx
          · exact hx ▸ h
          · exact hall x hx
        · intro hall x hx
          exact hall x (Or.inr hx)
  · induction cs with
    | nil => intro c hc; simp [pick_col] at hc
    | cons a rest ih =>
      intro c hc
      by_cases h : a ∈ df.cols
      · rw [pick_col_cons, if_pos h, Option.some.injEq] at hc
        subst hc
        exact ⟨h, [], rest, rfl, by simp⟩
      · rw [pick_col_cons, if_neg h] at hc
        obtain ⟨hmem, pre, post, heq, hpre⟩ := ih c hc
        refine ⟨hmem, a :: pre, post, by simp [heq], ?_⟩
        intro x hx
        rcases List.mem_cons.mp hx with hx | hx
        · exact hx ▸ h
        · exact hpre x hx

/-- C3 witness: the area role binds to `"Quartiere"` on the example table,
and `"Quartiere"` is preceded in the candidate list only by names that are
not among the table's columns. -/
theorem pick_col_first_match_witness :
    "Quartiere" ∈ (Table.mk ["Quartiere", "price"] []).cols ∧
    ∃ pre post, areaCandidates = pre ++ "Quartiere" :: post ∧
      ∀ x ∈ pre, x ∉ (Table.mk ["Quartiere", "price"] []).cols :=
  (pick_col_first_match (Table.mk ["Quartiere", "price"] []) areaCandidates).2.1
    "Quartiere" (by decide)

/-- C2: with a bound area column, an empty categorical selection leaves the
table unchanged, and a nonempty selection keeps exactly the rows whose
area-column value is a member of the selection. -/
theorem area_filter_spec (t : Table) (c : String) (hc : c ≠ "") (sel : List Val) :
    applyArea t (some c) [] = t ∧
    (sel ≠ [] → ∀ r, r ∈ (applyArea t (some c) sel).rows ↔ r ∈ t.rows ∧ getVal r c ∈ sel) := by
  constructor
  · simp [applyArea]
  · intro hsel r
    simp [applyArea, hc, hsel, List.mem_filter]

/-- C2 witness: on the example table, the empty selection keeps both rows and
the selection `["X"]` keeps exactly the row whose area is `"X"`. -/
theorem area_filter_spec_witness :
    applyArea exTable (some "Area") [] = exTable ∧
    (exRowX ∈ (applyArea exTable (some "Area") [Val.vstr "X"]).rows ↔
      exRowX ∈ exTable.rows ∧ getVal exRowX "Area" ∈ [Val.vstr "X"]) :=
  ⟨(area_filter_spec exTable "Area" (by decide) [Val.vstr "X"]).1,
   (area_filter_spec exTable "Area" (by decide) [Val.vstr "X"]).2 (by decide) exRowX⟩

/-- C7: when the bound column's coerced numeric values are empty after
dropping unparseable and missing cells, both statistics render the em-dash
sentinel. -/
theorem empty_numeric_sentinel (t : Table) (c : String) (h : colNums t c = []) :
    safe_mean t (some c) = "—" ∧ safe_median t (some c) = "—" := by
  constructor <;>
    · simp only [safe_mean, safe_median, h]
      split_ifs <;> simp_all

/-- C7 witness: a table whose only price cell is an unparseable string
renders both statistics as the em-dash. -/
theorem empty_numeric_sentinel_witness :
    safe_mean (Table.mk ["price"] [[("price", Val.vstr "n/a")]]) (some "price") = "—" ∧
    safe_median (Table.mk ["price"] [[("price", Val.vstr "n/a")]]) (some "price") = "—" :=
  empty_numeric_sentinel (Table.mk ["price"] [[("price", Val.vstr "n/a")]]) "price"
    (by with_unfolding_all decide)

/-- C9: `safe_mean` and `safe_median` return the em-dash sentinel when the
column argument is `none` or names a column absent from the table; being
total Lean functions, they return this string rather than failing. -/
theorem unbound_column_sentinel (t : Table) (c : String) (h : c ∉ t.cols) :
    safe_mean t none = "—" ∧ safe_median t none = "—" ∧
    safe_mean t (some c) = "—" ∧ safe_median t (some c) = "—" := by
  refine ⟨rfl, rfl, ?_, ?_⟩ <;> simp [safe_mean, safe_median, h]

/-- C9 witness: on the example table, a `none` column and the absent column
`"rooms"` both render as the em-dash. -/
theorem unbound_column_sentinel_witness :
    safe_mean exTable none = "—" ∧ safe_median exTable none = "—" ∧
    safe_mean exTable (some "rooms") = "—" ∧ safe_median exTable (some "rooms") = "—" :=
  unbound_column_sentinel exTable "rooms" (by decide)

/-- A table whose only numeric value is `-50`: large magnitude, negative. -/
def negTable : Table := { cols := ["x"], rows := [[("x", Val.vnum (-50))]] }

/-- A table whose only price value is `1234`. -/
def priceTable : Table := { cols := ["p"], rows := [[("p", Val.vnum 1234)]] }

/-- A table whose only score value is `0.456`. -/
def scoreTable : Table := { cols := ["p"], rows := [[("p", Val.vnum (456 / 1000))]] }

/-- C1 counterexample: the code dispatches on the signed comparison
`mean > 10`, not on `|mean| > 10`; for the column `[-50]` the magnitude
exceeds 10, yet the statistic renders as `"-50.000"` (three decimals) and not
as the zero-decimal thousands-separated form `"-50"`. -/
theorem central_tendency_abs_counterexample :
    10 < |meanList (colNums negTable "x")| ∧
    safe_mean negTable (some "x") = "-50.000" ∧
    fmtComma (meanList (colNums negTable "x")) = "-50" ∧
    safe_mean negTable (some "x") ≠ fmtComma (meanList (colNums negTable "x")) := by
  with_unfolding_all decide

/-- C1 (amended): the statistic over the coerced, cleaned column is formatted
with zero decimal places plus thousands separators when the signed value
exceeds 10, else with three decimal places and no separators; the value
`1234` renders as `"1,234"` and the value `0.456` as `"0.456"`. -/
theorem central_tendency_format (t : Table) (c : String) (h1 : c ≠ "") (h2 : c ∈ t.cols)
    (h3 : colNums t c ≠ []) :
    safe_mean t (some c) =
      (if 10 < meanList (colNums t c) then fmtComma (meanList (colNums t c))
       else fmtFixed 3 (meanList (colNums t c))) ∧
    safe_median t (some c) =
      (if 10 < medianList (colNums t c) then fmtComma (medianList (colNums t c))
       else fmtFixed 3 (medianList (colNums t c))) ∧
    safe_median priceTable (some "p") = "1,234" ∧
    safe_mean scoreTable (some "p") = "0.456" := by
  refine ⟨?_, ?_, by with_unfolding_all decide, by with_unfolding_all decide⟩ <;>
    simp [safe_mean, safe_median, h1, h2, h3]

/-- C1 witness: on the one-price table the hypotheses hold concretely and the
mean renders through the thousands-separated branch as `"1,234"`. -/
theorem central_tendency_format_witness :
    safe_mean priceTable (some "p") =
      (if 10 < meanList (colNums priceTable "p") then fmtComma (meanList (colNums priceTable "p"))
       else fmtFixed 3 (meanList (colNums priceTable "p"))) ∧
    safe_median priceTable (some "p") = "1,234" :=
  ⟨(central_tendency_format priceTable "p" (by decide) (by decide)
      (by with_unfolding_all decide)).1,
   (central_tendency_format priceTable "p" (by decide) (by decide)
      (by with_unfolding_all decide)).2.2.1⟩

/-- C5: a cell passes the numeric range test exactly when it coerces to a
number inside the closed interval; a missing or unparseable cell never
passes; when a range control is shown, the corresponding filter keeps exactly
the rows of the current table whose cell passes. -/
theorem range_pass_spec (t : Table) (c : String) (lo hi : ℚ) (r : Row) :
    (betweenRow r c lo hi = true ↔
      ∃ q, to_numVal (getVal r c) = some q ∧ lo ≤ q ∧ q ≤ hi) ∧
    (to_numVal (getVal r c) = none → betweenRow r c lo hi = false) ∧
    (rangeActive t (some c) = true →
      ∀ s, s ∈ (applyRange t (some c) (lo, hi)).rows ↔
        s ∈ t.rows ∧ betweenRow s c lo hi = true) ∧
    (bedActive t (some c) = true → ∀ br : ℤ × ℤ,
      ∀ s, s ∈ (applyBed t (some c) br).rows ↔
        s ∈ t.rows ∧ betweenRow s c (br.1 : ℚ) (br.2 : ℚ) = true) := by
  refine ⟨?_, ?_, ?_, ?_⟩
  · unfold betweenRow
    cases h : to_numVal (getVal r c) with
    | none => simp [h]
    | some q => simp [h]
  · intro h
    simp [betweenRow, h]
  · intro hact s
    by_cases hc : c = ""
    · simp [rangeActive, hc] at hact
    · by_cases hv : colNums t c = []
      · simp [rangeActive, hc, hv] at hact
      · by_cases hm : listMin (colNums t c) = listMax (colNums t c)
        · simp [rangeActive, hc, hv, hm] at hact
        · simp [applyRange, hc, hv, hm, List.mem_filter]
  · intro hact br s
    by_cases hc : c = ""
    · simp [bedActive, hc] at hact
    · by_cases hv : colNums t c = []
      · simp [bedActive, hc, hv] at hact
      · by_cases hm : truncQ (listMin (colNums t c)) = truncQ (listMax (colNums t c))
        · simp [bedActive, hc, hv, hm] at hact
        · simp [applyBed, hc, hv, hm, List.mem_filter]

/-- C5 witness: on the example table the bedroom control is shown, the first
row passes the range `[2, 3]` because its bedroom cell coerces to `2`, and a
cell that does not coerce never passes. -/
theorem range_pass_spec_witness :
    (betweenRow exRowX "Bedroom" 2 3 = true ↔
      ∃ q, to_numVal (getVal exRowX "Bedroom") = some q ∧ 2 ≤ q ∧ q ≤ 3) ∧
    (exRowX ∈ (applyBed exTable (some "Bedroom") (2, 3)).rows ↔
      exRowX ∈ exTable.rows ∧ betweenRow exRowX "Bedroom" ((2 : ℤ) : ℚ) ((3 : ℤ) : ℚ) = true) :=
  ⟨(range_pass_spec exTable "Bedroom" 2 3 exRowX).1,
   (range_pass_spec exTable "Bedroom" 2 3 exRowX).2.2.2
     (by with_unfolding_all decide) (2, 3) exRowX⟩

/-- C6: when the coerced column's minimum equals its maximum, the bedroom,
energy and transport range controls are omitted and their filters leave the
table unchanged, whatever the slider state. -/
theorem zero_width_range_omitted (t : Table) (c : String)
    (heq : listMin (colNums t c) = listMax (colNums t c)) (br : ℤ × ℤ) (qr : ℚ × ℚ) :
    applyBed t (some c) br = t ∧ applyRange t (some c) qr = t := by
  constructor
  · simp only [applyBed]
    split_ifs with h1 h2 h3
    · rfl
    · rfl
    · rfl
    · exact absurd (congrArg truncQ heq) h3
  · simp only [applyRange]
    split_ifs <;> rfl

/-- C6 witness: on a table whose score column is constantly `7`, both range
filters leave the table unchanged. -/
theorem zero_width_range_omitted_witness :
    applyBed (Table.mk ["s"] [[("s", Val.vnum 7)], [("s", Val.vnum 7)]]) (some "s") (0, 0) =
      Table.mk ["s"] [[("s", Val.vnum 7)], [("s", Val.vnum 7)]] ∧
    applyRange (Table.mk ["s"] [[("s", Val.vnum 7)], [("s", Val.vnum 7)]]) (some "s") (0, 0) =
      Table.mk ["s"] [[("s", Val.vnum 7)], [("s", Val.vnum 7)]] :=
  zero_width_range_omitted (Table.mk ["s"] [[("s", Val.vnum 7)], [("s", Val.vnum 7)]]) "s"
    (by with_unfolding_all decide) (0, 0) (0, 0)

/-- A row whose bedroom cell is the non-integral value `2.5`. -/
def fracRow : Row := [("b", Val.vnum (5 / 2))]

/-- A bedroom column with values `2.5` and `2.6`: distinct min and max but
equal integer truncations. -/
def tTruncA : Table := { cols := ["b"], rows := [[("b", Val.vnum (5 / 2))], [("b", Val.vnum (13 / 5))]] }

/-- A bedroom column with values `1` and `2.5`: truncated bounds `(1, 2)`. -/
def tTruncB : Table := { cols := ["b"], rows := [[("b", Val.vnum 1)], fracRow] }

/-- C10: the bedroom slider bounds are the coerced column's min and max
truncated to integers; when the truncations coincide the control is omitted
(even if the true min and max differ), and otherwise a row whose coerced
value exceeds the truncated maximum is excluded even at the slider's full
default range. -/
theorem bedroom_truncated_bounds (t : Table) (c : String) (hc : c ≠ "")
    (hne : colNums t c ≠ []) :
    (truncQ (listMin (colNums t c)) = truncQ (listMax (colNums t c)) →
      ∀ br : ℤ × ℤ, applyBed t (some c) br = t) ∧
    (truncQ (listMin (colNums t c)) ≠ truncQ (listMax (colNums t c)) →
      ∀ r q, to_numVal (getVal r c) = some q →
        (truncQ (listMax (colNums t c)) : ℚ) < q →
        r ∉ (applyBed t (some c)
          (truncQ (listMin (colNums t c)), truncQ (listMax (colNums t c)))).rows) := by
  constructor
  · intro hm br
    simp only [applyBed]
    split_ifs <;> rfl
  · intro hm r q hq hgt hr
    simp only [applyBed, if_neg hc, if_neg hne, if_neg hm] at hr
    rcases List.mem_filter.mp hr with ⟨-, hpass⟩
    simp only [betweenRow, hq, decide_eq_true_eq] at hpass
    exact absurd hpass.2 (not_le.mpr hgt)

/-- C10 witness: the column `[2.5, 2.6]` has `int(min) = int(max) = 2` and
its control is omitted, while on the column `[1, 2.5]` the default truncated
range `(1, 2)` excludes the row with value `2.5`. -/
theorem bedroom_truncated_bounds_witness :
    applyBed tTruncA (some "b") (2, 2) = tTruncA ∧
    fracRow ∉ (applyBed tTruncB (some "b")
      (truncQ (listMin (colNums tTruncB "b")), truncQ (listMax (colNums tTruncB "b")))).rows :=
  ⟨(bedroom_truncated_bounds tTruncA "b" (by decide) (by with_unfolding_all decide)).1
      (by with_unfolding_all decide) (2, 2),
   (bedroom_truncated_bounds tTruncB "b" (by decide) (by with_unfolding_all decide)).2
      (by with_unfolding_all decide) fracRow (5 / 2) (by with_unfolding_all decide)
      (by with_unfolding_all decide)⟩

theorem applyArea_rows_sublist (t : Table) (col : Option String) (sel : List Val) :
    ((applyArea t col sel).rows).Sublist t.rows := by
  cases col with
  | none => exact List.Sublist.refl _
  | some c =>
    simp only [applyArea]
    split_ifs <;> first
      | exact List.Sublist.refl _
      | exact List.filter_sublist _

theorem applyBed_rows_sublist (t : Table) (col : Option String) (br : ℤ × ℤ) :
    ((applyBed t col br).rows).Sublist t.rows := by
  cases col with
  | none => exact List.Sublist.refl _
  | some c =>
    simp only [applyBed]
    split_ifs <;> first
      | exact List.Sublist.refl _
      | exact List.filter_sublist _

theorem applyRange_rows_sublist (t : Table) (col : Option String) (qr : ℚ × ℚ) :
    ((applyRange t col qr).rows).Sublist t.rows := by
  cases col with
  | none => exact List.Sublist.refl _
  | some c =>
    simp only [applyRange]
    split_ifs <;> first
      | exact List.Sublist.refl _
      | exact List.filter_sublist _

theorem applyArea_empty_sel (t : Table) (col : Option String) :
    applyArea t col [] = t := by
  cases col with
  | none => rfl
  | some c => simp [applyArea]

theorem applyBed_not_shown (t : Table) (col : Option String) (br : ℤ × ℤ)
    (h : bedActive t col = false) : applyBed t col br = t := by
  cases col with
  | none => rfl
  | some c =>
    by_cases hc : c = ""
    · simp [applyBed, hc]
    · by_cases hv : colNums t c = []
      · simp [applyBed, hc, hv]
      · simp only [bedActive, if_neg hc, if_neg hv, decide_eq_false_iff_not, not_not] at h
        simp [applyBed, hc, hv, h]

theorem applyRange_not_shown (t : Table) (col : Option String) (qr : ℚ × ℚ)
    (h : rangeActive t col = false) : applyRange t col qr = t := by
  cases col with
  | none => rfl
  | some c =>
    by_cases hc : c = ""
    · simp [applyRange, hc]
    · by_cases hv : colNums t c = []
      · simp [applyRange, hc, hv]
      · simp only [rangeActive, if_neg hc, if_neg hv, decide_eq_false_iff_not, not_not] at h
        simp [applyRange, hc, hv, h]

/-- C4: the filtered view is a subsequence of the table's rows — it never
contains a row not in the table, its size is bounded by the table's size, and
the original row order is preserved — and when no constraint is active the
pipeline returns the table unchanged. -/
theorem filtered_view_invariant (df : Table) (b : Bindings) (ch : Choices) :
    ((applyFilters df b ch).rows).Sublist df.rows ∧
    (applyFilters df b ch).rows.length ≤ df.rows.length ∧
    (∀ r ∈ (applyFilters df b ch).rows, r ∈ df.rows) ∧
    (noActive df b ch → applyFilters df b ch = df) := by
  have hsub : ((applyFilters df b ch).rows).Sublist df.rows := by
    unfold applyFilters
    exact ((applyRange_rows_sublist _ _ _).trans
      ((applyRange_rows_sublist _ _ _).trans
        ((applyBed_rows_sublist _ _ _).trans (applyArea_rows_sublist _ _ _))))
  refine ⟨hsub, hsub.length_le, fun r hr => hsub.subset hr, ?_⟩
  rintro ⟨h1, h2, h3, h4⟩
  unfold applyFilters
  rw [h1, applyArea_empty_sel, applyBed_not_shown _ _ _ h2,
    applyRange_not_shown _ _ _ h3, applyRange_not_shown _ _ _ h4]

/-- A one-column table none of the dashboard's roles binds to. -/
def plainTable : Table := { cols := ["z"], rows := [[("z", Val.vnum 1)]] }

/-- An empty sidebar state: no area selected, all sliders at `(0, 0)`. -/
def emptyChoices : Choices :=
  { areaSel := [], bedRange := (0, 0), energyRange := (0, 0), transportRange := (0, 0) }

/-- C4 witness: on a table with no bound roles and an empty selection, no
constraint is active and the pipeline returns the table unchanged. -/
theorem filtered_view_invariant_witness :
    applyFilters plainTable (bindRoles plainTable) emptyChoices = plainTable :=
  (filtered_view_invariant plainTable (bindRoles plainTable) emptyChoices).2.2.2
    (by with_unfolding_all decide)

/-- C8: a missing primary dataset halts rendering with a top-level error and
nothing else; with the dataset present, an absent or unreadable metrics file
renders the three metric KPIs as em-dashes together with a visible message,
while the sidebar, Explore preview, SHAP and About sections still render and
rendering is not stopped. -/
theorem missing_file_handling (env : Env) :
    (env.datasetPresent = false →
      render env = [RItem.errorMsg "data file not found", RItem.stopMark]) ∧
    (env.datasetPresent = true →
      (env.metricsFile = none ∨ env.metricsFile = some none) →
      RItem.kpi "RMSE" "—" ∈ render env ∧ RItem.kpi "MAE" "—" ∈ render env ∧
      RItem.kpi "R²" "—" ∈ render env ∧
      (RItem.infoMsg "Create model_metrics.json in your notebook to show metrics here."
          ∈ render env ∨
        RItem.warnMsg "Couldn't read model_metrics.json" ∈ render env) ∧
      RItem.stopMark ∉ render env ∧
      RItem.sidebarSection ∈ render env ∧ RItem.previewSection ∈ render env ∧
      RItem.shapSection ∈ render env ∧ RItem.aboutSection ∈ render env) := by
  constructor
  · intro h
    simp [render, h]
  · intro hds hm
    by_cases hmap : env.mapPresent <;>
      rcases hm with hm | hm <;>
        simp [render, hds, hm, metricsItems, hmap]

/-- C8 witness: with the dataset present and the metrics file absent, the
three em-dash KPIs, the informational message and the surrounding sections
all render. -/
theorem missing_file_handling_witness :
    RItem.kpi "RMSE" "—" ∈ render (Env.mk true exTable emptyChoices false none) ∧
    RItem.kpi "MAE" "—" ∈ render (Env.mk true exTable emptyChoices false none) ∧
    RItem.kpi "R²" "—" ∈ render (Env.mk true exTable emptyChoices false none) ∧
    (RItem.infoMsg "Create model_metrics.json in your notebook to show metrics here."
        ∈ render (Env.mk true exTable emptyChoices false none) ∨
      RItem.warnMsg "Couldn't read model_metrics.json"
        ∈ render (Env.mk true exTable emptyChoices false none)) ∧
    RItem.stopMark ∉ render (Env.mk true exTable emptyChoices false none) ∧
    RItem.sidebarSection ∈ render (Env.mk true exTable emptyChoices false none) ∧
    RItem.previewSection ∈ render (Env.mk true exTable emptyChoices false none) ∧
    RItem.shapSection ∈ render (Env.mk true exTable emptyChoices false none) ∧
    RItem.aboutSection ∈ render (Env.mk true exTable emptyChoices false none) :=
  (missing_file_handling (Env.mk true exTable emptyChoices false none)).2 rfl (Or.inl rfl)

end Milan
